import Mathlib

/-!
Shallow embedding of the controller layer of the express-locallibrary
catalog application: the four entity controllers (Author, Book, Genre,
BookInstance) with their list/detail/create/delete/update handlers, the
document store they drive, and the declarative validation chains they
install.  Handlers are embedded as pure functions from a store and the
request's inputs to the sequence of response emissions (renders,
redirects, and errors forwarded to the generic error responder) together
with the resulting store.  Absent form fields are modelled as the empty
string, which the validation library treats identically to a missing
value in every chain that occurs here (trim of a missing value yields
the empty string, and the optional-with-checkFalsy date rules skip both).
-/

/-! ## Documents and the store -/

structure AuthorDoc where
  id : String
  first_name : String
  family_name : String
  date_of_birth : String
  date_of_death : String
deriving DecidableEq, Repr

structure BookDoc where
  id : String
  title : String
  author : String
  summary : String
  isbn : String
  genre : List String
deriving DecidableEq, Repr

structure GenreDoc where
  id : String
  name : String
deriving DecidableEq, Repr

structure InstanceDoc where
  id : String
  book : String
  imprint : String
  status : String
  due_back : String
deriving DecidableEq, Repr

structure Store where
  authors : List AuthorDoc
  books : List BookDoc
  genres : List GenreDoc
  instances : List InstanceDoc
deriving DecidableEq, Repr

def findAuthorById (s : Store) (idv : String) : Option AuthorDoc :=
  s.authors.find? (fun a => a.id == idv)

def findBookById (s : Store) (idv : String) : Option BookDoc :=
  s.books.find? (fun b => b.id == idv)

def findGenreById (s : Store) (idv : String) : Option GenreDoc :=
  s.genres.find? (fun g => g.id == idv)

def findInstanceById (s : Store) (idv : String) : Option InstanceDoc :=
  s.instances.find? (fun i => i.id == idv)

def findGenreByName (s : Store) (n : String) : Option GenreDoc :=
  s.genres.find? (fun g => g.name == n)

def booksByAuthor (s : Store) (idv : String) : List BookDoc :=
  s.books.filter (fun b => b.author == idv)

def booksByGenre (s : Store) (idv : String) : List BookDoc :=
  s.books.filter (fun b => b.genre.contains idv)

def instancesByBook (s : Store) (idv : String) : List InstanceDoc :=
  s.instances.filter (fun i => i.book == idv)

def removeAuthorById (s : Store) (idv : String) : Store :=
  { s with authors := s.authors.filter (fun a => !(a.id == idv)) }

def removeBookById (s : Store) (idv : String) : Store :=
  { s with books := s.books.filter (fun b => !(b.id == idv)) }

def removeGenreById (s : Store) (idv : String) : Store :=
  { s with genres := s.genres.filter (fun g => !(g.id == idv)) }

def removeInstanceById (s : Store) (idv : String) : Store :=
  { s with instances := s.instances.filter (fun i => !(i.id == idv)) }

/-- `findByIdAndUpdate`: when the id resolves, replace the document and
return the pre-update document (the store's default); when it does not
resolve, return nothing and leave the store unchanged. -/
def updateAuthorById (s : Store) (idv : String) (d : AuthorDoc) :
    Option AuthorDoc × Store :=
  match s.authors.find? (fun a => a.id == idv) with
  | none => (none, s)
  | some old =>
      (some old,
       { s with authors := s.authors.map (fun a => if a.id == idv then d else a) })

def updateBookById (s : Store) (idv : String) (d : BookDoc) :
    Option BookDoc × Store :=
  match s.books.find? (fun b => b.id == idv) with
  | none => (none, s)
  | some old =>
      (some old,
       { s with books := s.books.map (fun b => if b.id == idv then d else b) })

def updateGenreById (s : Store) (idv : String) (d : GenreDoc) :
    Option GenreDoc × Store :=
  match s.genres.find? (fun g => g.id == idv) with
  | none => (none, s)
  | some old =>
      (some old,
       { s with genres := s.genres.map (fun g => if g.id == idv then d else g) })

def updateInstanceById (s : Store) (idv : String) (d : InstanceDoc) :
    Option InstanceDoc × Store :=
  match s.instances.find? (fun i => i.id == idv) with
  | none => (none, s)
  | some old =>
      (some old,
       { s with instances := s.instances.map (fun i => if i.id == idv then d else i) })

/-- Modelled from the spec: the `url` virtual of the entity models
(models/author.js is not among the provided sources); the spec gives each
entity's canonical location as `/catalog/<entity-plural>/<id>`. -/
def authorUrl (idv : String) : String := "/catalog/authors/" ++ idv

/-- Modelled from the spec: the `url` virtual of the Book model
(models/book.js is not among the provided sources). -/
def bookUrl (idv : String) : String := "/catalog/books/" ++ idv

/-- Modelled from the spec: the `url` virtual of the Genre model
(models/genre.js is not among the provided sources). -/
def genreUrl (idv : String) : String := "/catalog/genres/" ++ idv

/-- Modelled from the spec: the `url` virtual of the BookInstance model
(models/bookinstance.js is not among the provided sources). -/
def instanceUrl (idv : String) : String := "/catalog/bookinstances/" ++ idv

/-- Modelled from the spec: `BookInstance.schema.path("status").enumValues`
lives in models/bookinstance.js, which is not among the provided sources;
the spec fixes the member set Available | Maintenance | Loaned | Reserved. -/
def statusEnumValues : List String :=
  ["Available", "Maintenance", "Loaned", "Reserved"]

/-! ## The validation library -/

/-- One sanitizing step of the validation library's `escape` transform. -/
def escapeChar (c : Char) : String :=
  if c = '&' then "&amp;"
  else if c.toNat = 34 then "&quot;"
  else if c.toNat = 39 then "&#x27;"
  else if c = '<' then "&lt;"
  else if c = '>' then "&gt;"
  else if c = '/' then "&#x2F;"
  else if c.toNat = 92 then "&#x5C;"
  else if c.toNat = 96 then "&#96;"
  else String.singleton c

/-- The validation library's `escape` sanitizer (HTML-entity escaping). -/
def escapeHtml (s : String) : String :=
  String.join (s.toList.map escapeChar)

/-- A whitespace character as the validation library's `trim` sees it. -/
def isWsChar (c : Char) : Bool :=
  c = ' ' || c.toNat = 9 || c.toNat = 10 || c.toNat = 13 || c.toNat = 12

/-- The validation library's `trim` sanitizer: strip leading and trailing
whitespace. -/
def jsTrim (s : String) : String :=
  String.mk (((s.toList.dropWhile isWsChar).reverse.dropWhile isWsChar).reverse)

/-- The validation library's `isAlphanumeric` check (default locale:
ASCII letters and digits, non-empty). -/
def isAlphanumericStr (s : String) : Bool :=
  !s.isEmpty && s.toList.all Char.isAlphanum

/-- Calendar-date recognizer standing in for the external validation
library's `isDate`/`isISO8601` checks (the Validator is an external black
box per the spec); recognizes the YYYY-MM-DD form the forms submit. -/
def isISO8601 (s : String) : Bool :=
  let cs := s.toList
  cs.length == 10 &&
  (cs.take 4).all Char.isDigit &&
  ((cs.drop 4).take 1 == ['-']) &&
  ((cs.drop 5).take 2).all Char.isDigit &&
  ((cs.drop 7).take 1 == ['-']) &&
  ((cs.drop 8).take 2).all Char.isDigit

/-- `toDate` leaves a skipped empty value empty and maps an unparsable
value to null; both are falsy where the handler tests `!req.body.due_back`. -/
def toDateFalsy (s : String) : Bool :=
  s == "" || !isISO8601 s

structure FieldError where
  value : String
  msg : String
  param : String
  location : String
deriving DecidableEq, Repr

def mkErr (v m p : String) : FieldError :=
  { value := v, msg := m, param := p, location := "body" }

/-- `body(field, msg).trim().isLength(min 1).escape()`: trim, record the
chain's message when the trimmed value is empty, then escape. -/
def validateReqField (field raw msg : String) : List FieldError × String :=
  let t := jsTrim raw
  let e := if 1 ≤ t.length then [] else [mkErr t msg field]
  (e, escapeHtml t)

/-- The author-name chain: trim, require non-empty (first message),
escape, then require alphanumeric (second message). -/
def validateNameField (field raw msgReq msgAlpha : String) :
    List FieldError × String :=
  let t := jsTrim raw
  let v := escapeHtml t
  let e1 := if 1 ≤ t.length then [] else [mkErr t msgReq field]
  let e2 := if isAlphanumericStr v then [] else [mkErr v msgAlpha field]
  (e1 ++ e2, v)

/-- `body(field, msg).optional(checkFalsy).isISO8601().toDate()`: an empty
value skips the chain; otherwise an unparsable value records the message. -/
def validateDateField (field raw msg : String) : List FieldError × String :=
  if raw == "" then ([], raw)
  else if isISO8601 raw then ([], raw)
  else ([mkErr raw msg field], raw)

/-- `body("due_back", "Invalid date").optional(checkFalsy).isDate().isISO8601()`:
two date validators share the chain message; both are modelled by the same
external recognizer. -/
def validateDueBack (raw : String) : List FieldError :=
  if raw == "" then []
  else
    (if isISO8601 raw then [] else [mkErr raw "Invalid date" "due_back"]) ++
    (if isISO8601 raw then [] else [mkErr raw "Invalid date" "due_back"])

/-! ## Request bodies and candidates -/

structure AuthorBody where
  first_name : String
  family_name : String
  date_of_birth : String
  date_of_death : String
deriving DecidableEq, Repr

/-- The author validation chains, in installation order; returns the
collected field errors and the sanitized body. -/
def validateAuthorBody (b : AuthorBody) : List FieldError × AuthorBody :=
  let r1 := validateNameField "first_name" b.first_name
    "First name must be specified." "First name has non-alphanumeric characters."
  let r2 := validateNameField "family_name" b.family_name
    "Family name must be specified." "Family name has non-alphanumeric characters."
  let r3 := validateDateField "date_of_birth" b.date_of_birth "Invalid date of birth"
  let r4 := validateDateField "date_of_death" b.date_of_death "Invalid date of death"
  (r1.1 ++ r2.1 ++ r3.1 ++ r4.1,
   { first_name := r1.2, family_name := r2.2,
     date_of_birth := r3.2, date_of_death := r4.2 })

/-- The candidate Author entity built from the sanitized body. -/
def authorCandidate (idv : String) (sb : AuthorBody) : AuthorDoc :=
  { id := idv, first_name := sb.first_name, family_name := sb.family_name,
    date_of_birth := sb.date_of_birth, date_of_death := sb.date_of_death }

/-- The raw `genre` field of a book form: absent, a single raw value, or
an array of raw values. -/
inductive GenreField where
  | undef
  | one (s : String)
  | many (l : List String)
deriving DecidableEq, Repr

/-- The normalization middleware: not-an-array becomes the empty list when
absent, else a one-element array. -/
def normalizeGenre : GenreField → List String
  | .undef => []
  | .one s => [s]
  | .many l => l

structure BookBody where
  title : String
  author : String
  summary : String
  isbn : String
  genre : GenreField
deriving DecidableEq, Repr

structure BookForm where
  title : String
  author : String
  summary : String
  isbn : String
  genre : List String
deriving DecidableEq, Repr

/-- The book validation chains (after genre normalization), in
installation order. -/
def validateBookBody (b : BookBody) : List FieldError × BookForm :=
  let r1 := validateReqField "title" b.title "Title must not be empty."
  let r2 := validateReqField "author" b.author "Author must not be empty."
  let r3 := validateReqField "summary" b.summary "Summary must not be empty."
  let r4 := validateReqField "isbn" b.isbn "ISBN must not be empty"
  (r1.1 ++ r2.1 ++ r3.1 ++ r4.1,
   { title := r1.2, author := r2.2, summary := r3.2, isbn := r4.2,
     genre := (normalizeGenre b.genre).map escapeHtml })

/-- The candidate Book entity built from the sanitized body. -/
def bookCandidate (idv : String) (f : BookForm) : BookDoc :=
  { id := idv, title := f.title, author := f.author, summary := f.summary,
    isbn := f.isbn, genre := f.genre }

structure InstanceBody where
  book : String
  imprint : String
  status : String
  due_back : String
deriving DecidableEq, Repr

structure InstanceForm where
  book : String
  imprint : String
  status : String
  due_back : String
deriving DecidableEq, Repr

/-- The book-instance validation chains, in installation order; `status`
is escaped without any check, `due_back` is an optional date. -/
def validateInstanceBody (b : InstanceBody) : List FieldError × InstanceForm :=
  let r1 := validateReqField "book" b.book "Book must be specified"
  let r2 := validateReqField "imprint" b.imprint "Imprint must be specified"
  let e3 := validateDueBack b.due_back
  (r1.1 ++ r2.1 ++ e3,
   { book := r1.2, imprint := r2.2, status := escapeHtml b.status,
     due_back := b.due_back })

/-- The candidate BookInstance entity built from the sanitized body. -/
def instanceCandidate (idv : String) (f : InstanceForm) : InstanceDoc :=
  { id := idv, book := f.book, imprint := f.imprint, status := f.status,
    due_back := f.due_back }

/-- The candidate Genre entity: the name field trimmed and escaped. -/
def genreCandidate (idv : String) (rawName : String) : GenreDoc :=
  { id := idv, name := escapeHtml (jsTrim rawName) }

/-- The single genre validation chain: `body("name", "Genre name required")
.trim().isLength(min 1).escape()`. -/
def validateGenreName (rawName : String) : List FieldError :=
  if 1 ≤ (jsTrim rawName).length then [] else
    [mkErr (jsTrim rawName) "Genre name required" "name"]

/-! ## Responses -/

/-- The data bag handed to the renderer; every view's fields live in one
record, absent entries defaulted.  `genres_checked` holds the identifiers
of the genre options the handler marked `checked` on the form. -/
structure RenderBag where
  title : String := ""
  author : Option AuthorDoc := none
  authors : List AuthorDoc := []
  authors_books : List BookDoc := []
  author_books : List BookDoc := []
  book : Option BookDoc := none
  books : List BookDoc := []
  book_instances : List InstanceDoc := []
  bookinstance : Option InstanceDoc := none
  genre : Option GenreDoc := none
  genres : List GenreDoc := []
  genres_checked : List String := []
  genre_books : List BookDoc := []
  statuses : List String := []
  selected_book : Option String := none
  errors : List FieldError := []
deriving DecidableEq, Repr

/-- One observable step of a handler: a view render, a redirect, or an
error forwarded to the generic error responder (with its optional HTTP
status). -/
inductive Emission where
  | render (view : String) (bag : RenderBag)
  | redirect (loc : String)
  | nextErr (status : Option Nat) (msg : String)
deriving DecidableEq, Repr

/-- Whether an emission sequence carries a NotFound error (status 404). -/
def emits404 (es : List Emission) : Bool :=
  es.any (fun e =>
    match e with
    | .nextErr (some 404) _ => true
    | _ => false)

/-- Whether the emission sequence is exactly one render of the named view
whose bag carries the given field error. -/
def rendersWithError (es : List Emission) (v : String) (fe : FieldError) : Bool :=
  match es with
  | [Emission.render w bag] => w == v && bag.errors.contains fe
  | _ => false

/-! ## Detail handlers (read path) -/

def author_detail (s : Store) (pid : String) : List Emission × Store :=
  let author := findAuthorById s pid
  let authors_books := booksByAuthor s pid
  match author with
  | none => ([.nextErr (some 404) "Author not found"], s)
  | some a =>
      ([.render "author_detail"
          { title := "Author Detail", author := some a,
            authors_books := authors_books }], s)

def book_detail (s : Store) (pid : String) : List Emission × Store :=
  let book := findBookById s pid
  let book_instance := instancesByBook s pid
  match book with
  | none => ([.nextErr (some 404) "Book not found"], s)
  | some b =>
      ([.render "book_detail"
          { title := b.title, book := some b,
            book_instances := book_instance }], s)

def genre_detail (s : Store) (pid : String) : List Emission × Store :=
  let genre := findGenreById s pid
  let genre_books := booksByGenre s pid
  match genre with
  | none => ([.nextErr (some 404) "Genre not found"], s)
  | some g =>
      ([.render "genre_detail"
          { title := "Genre Detail", genre := some g,
            genre_books := genre_books }], s)

def bookinstance_detail (s : Store) (pid : String) : List Emission × Store :=
  match findInstanceById s pid with
  | none => ([.nextErr (some 404) "Book copy not found"], s)
  | some i =>
      match findBookById s i.book with
      | some bk =>
          ([.render "bookinstance_detail"
              { title := "Copy: " ++ bk.title, bookinstance := some i }], s)
      | none =>
          ([.nextErr none "TypeError: cannot read title of null"], s)

/-! ## Delete handlers

The delete-GET handlers redirect on a missing document but lack a
`return`, so execution falls through and the render is attempted as
well; the emission sequence records the redirect first (the effective
client response) followed by the render. -/

def author_delete_get (s : Store) (pid : String) : List Emission × Store :=
  let author := findAuthorById s pid
  let author_books := booksByAuthor s pid
  let pre := if author.isNone then [Emission.redirect "/catalog/authors"] else []
  (pre ++ [.render "author_delete"
      { title := "Delete Author", author := author,
        author_books := author_books }], s)

def book_delete_get (s : Store) (pid : String) : List Emission × Store :=
  let book := findBookById s pid
  let book_instances := instancesByBook s pid
  let pre := if book.isNone then [Emission.redirect "/catalog/books"] else []
  (pre ++ [.render "book_delete"
      { title := "Delete Book", book := book,
        book_instances := book_instances }], s)

def genre_delete_get (s : Store) (pid : String) : List Emission × Store :=
  let genre := findGenreById s pid
  let genre_books := booksByGenre s pid
  let pre := if genre.isNone then [Emission.redirect "/catalog/genres"] else []
  (pre ++ [.render "genre_delete"
      { title := "Delete Genre", genre := genre,
        genre_books := genre_books }], s)

def bookinstance_delete_get (s : Store) (pid : String) : List Emission × Store :=
  let bookinstance := findInstanceById s pid
  let pre :=
    if bookinstance.isNone then [Emission.redirect "/catalog/bookinstances"] else []
  (pre ++ [.render "bookinstance_delete"
      { title := "Delete Book Instance", bookinstance := bookinstance }], s)

/-- Author delete-POST: both the dependents check and the removal use the
body's `authorid`. -/
def author_delete_post (s : Store) (authorid : String) : List Emission × Store :=
  let author := findAuthorById s authorid
  let author_books := booksByAuthor s authorid
  if author_books.length > 0 then
    ([.render "author_delete"
        { title := "Delete Author", author := author,
          author_books := author_books }], s)
  else
    ([.redirect "/catalog/authors"], removeAuthorById s authorid)

/-- Book delete-POST: the fetch and the dependents check use the path
id, while the removal uses the body's `bookid`. -/
def book_delete_post (s : Store) (pid bookid : String) : List Emission × Store :=
  let book := findBookById s pid
  let book_instances := instancesByBook s pid
  if book_instances.length > 0 then
    ([.render "book_delete"
        { title := "Delete Book", book := book,
          book_instances := book_instances }], s)
  else
    ([.redirect "/catalog/books"], removeBookById s bookid)

/-- Genre delete-POST: the fetch and the dependents check use the path
id, while the removal uses the body's `genreid`. -/
def genre_delete_post (s : Store) (pid genreid : String) : List Emission × Store :=
  let genre := findGenreById s pid
  let genre_books := booksByGenre s pid
  if genre_books.length > 0 then
    ([.render "genre_delete"
        { title := "Delete Genre", genre := genre,
          genre_books := genre_books }], s)
  else
    ([.redirect "/catalog/genres"], removeGenreById s genreid)

/-- BookInstance delete-POST: unconditional removal by the body id. -/
def bookinstance_delete_post (s : Store) (bookinstanceid : String) :
    List Emission × Store :=
  ([.redirect "/catalog/bookinstances"], removeInstanceById s bookinstanceid)

/-! ## Create handlers -/

def author_create_post (s : Store) (freshId : String) (b : AuthorBody) :
    List Emission × Store :=
  let r := validateAuthorBody b
  if !r.1.isEmpty then
    ([.render "author_form"
        { title := "Create Author", author := some (authorCandidate "" r.2),
          errors := r.1 }], s)
  else
    let author := authorCandidate freshId r.2
    ([.redirect (authorUrl author.id)],
     { s with authors := s.authors ++ [author] })

def book_create_post (s : Store) (freshId : String) (b : BookBody) :
    List Emission × Store :=
  let r := validateBookBody b
  let book := bookCandidate freshId r.2
  if !r.1.isEmpty then
    let checked := (s.genres.filter (fun g => book.genre.contains g.id)).map (fun g => g.id)
    ([.render "book_form"
        { title := "Create Book", authors := s.authors, genres := s.genres,
          genres_checked := checked, book := some book, errors := r.1 }], s)
  else
    ([.redirect (bookUrl book.id)], { s with books := s.books ++ [book] })

def genre_create_post (s : Store) (freshId : String) (rawName : String) :
    List Emission × Store :=
  let errs := validateGenreName rawName
  let genre := genreCandidate freshId rawName
  if !errs.isEmpty then
    ([.render "genre_form"
        { title := "Create Genre", genre := some genre, errors := errs }], s)
  else
    match findGenreByName s genre.name with
    | some m => ([.redirect (genreUrl m.id)], s)
    | none =>
        ([.redirect (genreUrl genre.id)],
         { s with genres := s.genres ++ [genre] })

def bookinstance_create_post (s : Store) (freshId : String) (b : InstanceBody) :
    List Emission × Store :=
  let r := validateInstanceBody b
  let bookinstance := instanceCandidate freshId r.2
  if !r.1.isEmpty then
    ([.render "bookinstance_form"
        { title := "Create BookInstance", books := s.books,
          statuses := statusEnumValues,
          selected_book := some bookinstance.book,
          errors := r.1, bookinstance := some bookinstance }], s)
  else
    ([.redirect (instanceUrl bookinstance.id)],
     { s with instances := s.instances ++ [bookinstance] })

/-! ## Update handlers -/

def author_update_get (s : Store) (pid : String) : List Emission × Store :=
  match findAuthorById s pid with
  | none => ([.nextErr (some 404) "Book not found"], s)
  | some a =>
      ([.render "author_form" { title := "Update Author", author := some a }], s)

def book_update_get (s : Store) (pid : String) : List Emission × Store :=
  match findBookById s pid with
  | none => ([.nextErr (some 404) "Book not found"], s)
  | some bk =>
      let checked :=
        (s.genres.filter (fun g => bk.genre.contains g.id)).map (fun g => g.id)
      ([.render "book_form"
          { title := "Update Book", authors := s.authors, genres := s.genres,
            genres_checked := checked, book := some bk }], s)

/-- Genre update-GET: renders the form directly, with no store lookup of
the path id and no error path. -/
def genre_update_get (s : Store) (_pid : String) : List Emission × Store :=
  ([.render "genre_form" { title := "Update Genre" }], s)

def bookinstance_update_get (s : Store) (pid : String) : List Emission × Store :=
  match findInstanceById s pid with
  | none => ([.nextErr (some 404) "Book not found"], s)
  | some i =>
      ([.render "bookinstance_form"
          { title := "Update Book Instance", books := s.books,
            bookinstance := some i, statuses := statusEnumValues }], s)

def author_update_post (s : Store) (pid : String) (b : AuthorBody) :
    List Emission × Store :=
  let r := validateAuthorBody b
  let author := authorCandidate pid r.2
  if !r.1.isEmpty then
    ([.render "author_form"
        { title := "Update Author", author := some author, errors := r.1 }], s)
  else
    match updateAuthorById s pid author with
    | (some old, s2) => ([.redirect (authorUrl old.id)], s2)
    | (none, s2) => ([.nextErr none "TypeError: cannot read url of null"], s2)

def book_update_post (s : Store) (pid : String) (b : BookBody) :
    List Emission × Store :=
  let r := validateBookBody b
  let book := bookCandidate pid r.2
  if !r.1.isEmpty then
    let checked :=
      (s.genres.filter (fun g => book.genre.contains g.id)).map (fun g => g.id)
    ([.render "book_form"
        { title := "Update Book", authors := s.authors, genres := s.genres,
          genres_checked := checked, book := some book, errors := r.1 }], s)
  else
    match updateBookById s pid book with
    | (some old, s2) => ([.redirect (bookUrl old.id)], s2)
    | (none, s2) => ([.nextErr none "TypeError: cannot read url of null"], s2)

/-- The synthetic cross-field error the BookInstance update-POST pushes
when the (sanitized) status is not Available and `due_back` is falsy. -/
def dateErrow : FieldError :=
  { value := "", msg := "Invalid date", param := "Due_back", location := "body" }

def bookinstance_update_post (s : Store) (pid : String) (b : InstanceBody) :
    List Emission × Store :=
  let r := validateInstanceBody b
  let extra :=
    if !(r.2.status == "Available") && toDateFalsy b.due_back then [dateErrow] else []
  let errs := r.1 ++ extra
  let bookinstance := instanceCandidate pid r.2
  if !errs.isEmpty then
    ([.render "bookinstance_form"
        { title := "Update Book Instance", books := s.books,
          statuses := statusEnumValues, bookinstance := some bookinstance,
          errors := errs }], s)
  else
    match updateInstanceById s pid bookinstance with
    | (some old, s2) => ([.redirect (instanceUrl old.id)], s2)
    | (none, s2) => ([.nextErr none "TypeError: cannot read url of null"], s2)

def genre_update_post (s : Store) (pid : String) (rawName : String) :
    List Emission × Store :=
  let errs := validateGenreName rawName
  let genre := genreCandidate pid rawName
  if !errs.isEmpty then
    ([.render "genre_form"
        { title := "Update Genre", genre := some genre, errors := errs }], s)
  else
    match findGenreByName s genre.name with
    | some m => ([.redirect (genreUrl m.id)], s)
    | none =>
        match updateGenreById s pid genre with
        | (some old, s2) => ([.redirect (genreUrl old.id)], s2)
        | (none, s2) => ([.nextErr none "TypeError: cannot read url of null"], s2)

/-! ## Concrete fixtures -/

def auth1 : AuthorDoc :=
  { id := "a1", first_name := "Jane", family_name := "Doe",
    date_of_birth := "", date_of_death := "" }

def gen1 : GenreDoc := { id := "g1", name := "Fantasy" }

def gen2 : GenreDoc := { id := "g2", name := "Poetry" }

def bk1 : BookDoc :=
  { id := "b1", title := "T", author := "a1", summary := "S", isbn := "I",
    genre := ["g1"] }

def bk2 : BookDoc :=
  { id := "b2", title := "U", author := "a2", summary := "S2", isbn := "I2",
    genre := ["g2"] }

def inst1 : InstanceDoc :=
  { id := "i1", book := "b1", imprint := "Imp", status := "Loaned",
    due_back := "" }

/-- A populated store: author a1 wrote b1, b1 is in genre g1 and has the
dependent copy i1; b2 is in genre g2. -/
def store1 : Store :=
  { authors := [auth1], books := [bk1, bk2], genres := [gen1, gen2],
    instances := [inst1] }

/-- The empty store. -/
def estore : Store := { authors := [], books := [], genres := [], instances := [] }

/-! ## Claim theorems -/

/-- C1 (counterexample): Book delete-POST does not delete unconditionally.
In `store1` the book b1 has the dependent copy i1, and the delete request
on b1 leaves the store unchanged — b1 is still present — so the deletion
did not proceed. -/
theorem c1_counterexample :
    instancesByBook store1 "b1" ≠ [] ∧
    (book_delete_post store1 "b1" "b1").2 = store1 ∧
    findBookById (book_delete_post store1 "b1" "b1").2 "b1" = some bk1 := by
  decide

/-- C1 (amended): Book delete-POST performs a dependents check on the
path id: when at least one BookInstance references the path id it
re-renders the confirmation view and deletes nothing; only when no
BookInstance references the path id does it remove the body-id book and
redirect to the book list. -/
theorem c1_book_delete_checks_dependents (s : Store) (pid bid : String) :
    (instancesByBook s pid ≠ [] →
      book_delete_post s pid bid =
        ([.render "book_delete"
            { title := "Delete Book", book := findBookById s pid,
              book_instances := instancesByBook s pid }], s)) ∧
    (instancesByBook s pid = [] →
      book_delete_post s pid bid =
        ([.redirect "/catalog/books"], removeBookById s bid)) := by
  constructor
  · intro h
    simp only [book_delete_post]
    rw [if_pos (List.length_pos.mpr h)]
  · intro h
    simp [book_delete_post, h]

/-- C1 (witness): the amended theorem applied to the concrete store in
which b1 has a dependent copy. -/
theorem c1_witness :
    instancesByBook store1 "b1" ≠ [] ∧
    book_delete_post store1 "b1" "b1" =
      ([.render "book_delete"
          { title := "Delete Book", book := findBookById store1 "b1",
            book_instances := instancesByBook store1 "b1" }], store1) :=
  ⟨by decide, (c1_book_delete_checks_dependents store1 "b1" "b1").1 (by decide)⟩

/-- C2: an Author or Genre delete-POST on an entity with at least one
dependent Book leaves the store untouched (so no document count
decreases) and responds by re-rendering the delete confirmation view,
not by redirecting. -/
theorem c2_delete_blocked_by_dependents (s : Store) (aid gid : String) :
    (booksByAuthor s aid ≠ [] →
      author_delete_post s aid =
        ([.render "author_delete"
            { title := "Delete Author", author := findAuthorById s aid,
              author_books := booksByAuthor s aid }], s)) ∧
    (booksByGenre s gid ≠ [] →
      genre_delete_post s gid gid =
        ([.render "genre_delete"
            { title := "Delete Genre", genre := findGenreById s gid,
              genre_books := booksByGenre s gid }], s)) := by
  constructor
  · intro h
    simp only [author_delete_post]
    rw [if_pos (List.length_pos.mpr h)]
  · intro h
    simp only [genre_delete_post]
    rw [if_pos (List.length_pos.mpr h)]

/-- C2 (witness): author a1 and genre g1 each have a dependent book in
`store1`; both delete-POSTs re-render and change nothing. -/
theorem c2_witness :
    booksByAuthor store1 "a1" ≠ [] ∧ booksByGenre store1 "g1" ≠ [] ∧
    author_delete_post store1 "a1" =
      ([.render "author_delete"
          { title := "Delete Author", author := findAuthorById store1 "a1",
            author_books := booksByAuthor store1 "a1" }], store1) ∧
    genre_delete_post store1 "g1" "g1" =
      ([.render "genre_delete"
          { title := "Delete Genre", genre := findGenreById store1 "g1",
            genre_books := booksByGenre store1 "g1" }], store1) :=
  ⟨by decide, by decide,
   (c2_delete_blocked_by_dependents store1 "a1" "g1").1 (by decide),
   (c2_delete_blocked_by_dependents store1 "a1" "g1").2 (by decide)⟩

/-- C3 (counterexample): Genre update-GET does not pre-load the document
and does not fail with NotFound.  In the empty store the id g1 resolves
to no document, yet the handler emits a plain render of the form and no
404 error. -/
theorem c3_counterexample :
    findGenreById estore "g1" = none ∧
    genre_update_get estore "g1" =
      ([.render "genre_form" { title := "Update Genre" }], estore) ∧
    emits404 (genre_update_get estore "g1").1 = false := by
  decide

/-- C3 (amended): the Author, Book and BookInstance update-GET handlers
pre-load the document and fail with a 404 NotFound error when the path
id resolves to no document; the Genre update-GET handler instead renders
the blank form with no store lookup and no error path. -/
theorem c3_update_get_notfound (s : Store) (pid : String) :
    (findAuthorById s pid = none →
      author_update_get s pid = ([.nextErr (some 404) "Book not found"], s)) ∧
    (findBookById s pid = none →
      book_update_get s pid = ([.nextErr (some 404) "Book not found"], s)) ∧
    (findInstanceById s pid = none →
      bookinstance_update_get s pid = ([.nextErr (some 404) "Book not found"], s)) ∧
    genre_update_get s pid =
      ([.render "genre_form" { title := "Update Genre" }], s) := by
  refine ⟨fun h => ?_, fun h => ?_, fun h => ?_, rfl⟩
  · simp [author_update_get, h]
  · simp [book_update_get, h]
  · simp [bookinstance_update_get, h]

/-- C3 (witness): the amended theorem applied to the empty store. -/
theorem c3_witness :
    findAuthorById estore "x" = none ∧
    author_update_get estore "x" = ([.nextErr (some 404) "Book not found"], estore) :=
  ⟨by decide, (c3_update_get_notfound estore "x").1 (by decide)⟩

/-- C6: for each entity type a detail-GET on a nonexistent id forwards a
NotFound error with status 404 to the generic error responder, while a
delete-GET on a nonexistent id emits a redirect to that entity's list
page as its (first, client-effective) response. -/
theorem c6_detail_404_delete_get_redirects (s : Store) (pid : String) :
    (findAuthorById s pid = none →
      author_detail s pid = ([.nextErr (some 404) "Author not found"], s) ∧
      (author_delete_get s pid).1.head? = some (.redirect "/catalog/authors")) ∧
    (findBookById s pid = none →
      book_detail s pid = ([.nextErr (some 404) "Book not found"], s) ∧
      (book_delete_get s pid).1.head? = some (.redirect "/catalog/books")) ∧
    (findGenreById s pid = none →
      genre_detail s pid = ([.nextErr (some 404) "Genre not found"], s) ∧
      (genre_delete_get s pid).1.head? = some (.redirect "/catalog/genres")) ∧
    (findInstanceById s pid = none →
      bookinstance_detail s pid = ([.nextErr (some 404) "Book copy not found"], s) ∧
      (bookinstance_delete_get s pid).1.head? =
        some (.redirect "/catalog/bookinstances")) := by
  refine ⟨fun h => ⟨?_, ?_⟩, fun h => ⟨?_, ?_⟩, fun h => ⟨?_, ?_⟩, fun h => ⟨?_, ?_⟩⟩
  · simp [author_detail, h]
  · simp [author_delete_get, h]
  · simp [book_detail, h]
  · simp [book_delete_get, h]
  · simp [genre_detail, h]
  · simp [genre_delete_get, h]
  · simp [bookinstance_detail, h]
  · simp [bookinstance_delete_get, h]

/-- C6 (witness): the theorem applied to the empty store, where no id
resolves. -/
theorem c6_witness :
    findAuthorById estore "x" = none ∧
    author_detail estore "x" = ([.nextErr (some 404) "Author not found"], estore) ∧
    (author_delete_get estore "x").1.head? = some (.redirect "/catalog/authors") := by
  have h := (c6_detail_404_delete_get_redirects estore "x").1 (by decide)
  exact ⟨by decide, h.1, h.2⟩

/-- C9: in Genre and Book delete-POST the dependents check targets the
path id while the removal targets the body id, so when the two differ
and the path-id document has no dependents the body-id document is
removed (whatever its own dependents); Author delete-POST instead uses
the body id both for the check and for the removal. -/
theorem c9_delete_post_id_mismatch (s : Store) (pid bid : String) :
    (pid ≠ bid → booksByGenre s pid = [] →
      genre_delete_post s pid bid =
        ([.redirect "/catalog/genres"], removeGenreById s bid)) ∧
    (pid ≠ bid → instancesByBook s pid = [] →
      book_delete_post s pid bid =
        ([.redirect "/catalog/books"], removeBookById s bid)) ∧
    (booksByAuthor s bid ≠ [] →
      author_delete_post s bid =
        ([.render "author_delete"
            { title := "Delete Author", author := findAuthorById s bid,
              author_books := booksByAuthor s bid }], s)) ∧
    (booksByAuthor s bid = [] →
      author_delete_post s bid =
        ([.redirect "/catalog/authors"], removeAuthorById s bid)) := by
  refine ⟨fun _ h => ?_, fun _ h => ?_, fun h => ?_, fun h => ?_⟩
  · simp [genre_delete_post, h]
  · simp [book_delete_post, h]
  · simp only [author_delete_post]
    rw [if_pos (List.length_pos.mpr h)]
  · simp [author_delete_post, h]

/-- C9 (witness): in `store1`, genre g1 has the dependent book b1 and
genre g2 has the dependent book b2; a delete-POST whose path id is a
dependent-free unknown id "gX" but whose body id is g2 removes g2 even
though b2 still references it. -/
theorem c9_witness :
    booksByGenre store1 "gX" = [] ∧ booksByGenre store1 "g2" ≠ [] ∧
    genre_delete_post store1 "gX" "g2" =
      ([.redirect "/catalog/genres"], removeGenreById store1 "g2") ∧
    (removeGenreById store1 "g2").genres = [gen1] :=
  ⟨by decide, by decide,
   (c9_delete_post_id_mismatch store1 "gX" "g2").1 (by decide) (by decide),
   by decide⟩

/-- C4: a Genre create-POST with valid input (non-empty trimmed name)
whose sanitized name matches an existing Genre inserts nothing — the
store is unchanged — and redirects to the existing document's detail
location; otherwise the candidate is appended and the response redirects
to its detail location. -/
theorem c4_genre_create_duplicate_name (s : Store) (fid rawName : String)
    (hv : 1 ≤ (jsTrim rawName).length) :
    (∀ m, findGenreByName s (escapeHtml (jsTrim rawName)) = some m →
      genre_create_post s fid rawName = ([.redirect (genreUrl m.id)], s)) ∧
    (findGenreByName s (escapeHtml (jsTrim rawName)) = none →
      genre_create_post s fid rawName =
        ([.redirect (genreUrl fid)],
         { s with genres := s.genres ++ [genreCandidate fid rawName] })) := by
  constructor
  · intro m hm
    simp [genre_create_post, validateGenreName, hv, genreCandidate, hm]
  · intro hm
    simp [genre_create_post, validateGenreName, hv, genreCandidate, hm]

/-- C4 (witness): creating "Fantasy" in `store1`, which already holds the
genre g1 named Fantasy, changes nothing and redirects to g1's detail
location; the genre count does not increase. -/
theorem c4_witness :
    1 ≤ (jsTrim "Fantasy").length ∧
    findGenreByName store1 (escapeHtml (jsTrim "Fantasy")) = some gen1 ∧
    genre_create_post store1 "gNew" "Fantasy" =
      ([.redirect (genreUrl gen1.id)], store1) :=
  ⟨by decide, by decide,
   (c4_genre_create_duplicate_name store1 "gNew" "Fantasy" (by decide)).1 gen1 (by decide)⟩

/-- C5: a BookInstance update-POST whose sanitized status is not
"Available" and whose `due_back` is absent re-renders the form with the
synthetic Due_back field error among the errors, and executes no
update — the store is unchanged. -/
theorem c5_due_back_required_when_not_available (s : Store) (pid : String)
    (b : InstanceBody)
    (hstatus : (validateInstanceBody b).2.status ≠ "Available")
    (hdue : b.due_back = "") :
    (bookinstance_update_post s pid b).2 = s ∧
    rendersWithError (bookinstance_update_post s pid b).1
      "bookinstance_form" dateErrow = true := by
  have hfals : toDateFalsy b.due_back = true := by
    simp [toDateFalsy, hdue]
  have hne : ((validateInstanceBody b).2.status == "Available") = false := by
    simp [hstatus]
  simp only [bookinstance_update_post, hfals, hne, Bool.false_and,
    Bool.not_false, Bool.true_and, if_true]
  constructor
  · simp
  · simp [rendersWithError]

/-- C5 (witness): a Loaned update with empty `due_back` re-renders with
the synthetic error and leaves the store unchanged. -/
theorem c5_witness :
    (validateInstanceBody
        { book := "b1", imprint := "Imp", status := "Loaned", due_back := "" }).2.status
      ≠ "Available" ∧
    (bookinstance_update_post store1 "i1"
        { book := "b1", imprint := "Imp", status := "Loaned", due_back := "" }).2
      = store1 ∧
    rendersWithError
      (bookinstance_update_post store1 "i1"
        { book := "b1", imprint := "Imp", status := "Loaned", due_back := "" }).1
      "bookinstance_form" dateErrow = true := by
  have h := c5_due_back_required_when_not_available store1 "i1"
    { book := "b1", imprint := "Imp", status := "Loaned", due_back := "" }
    (by decide) (by decide)
  exact ⟨by decide, h.1, h.2⟩

/-- C7: every update-POST builds its candidate with the path id as the
identifier, and the store it leaves behind is either untouched or the
result of the update-by-id operation on the path id — persistence never
goes through an insert. -/
theorem c7_update_post_reuses_path_id (s : Store) (pid : String)
    (ab : AuthorBody) (bb : BookBody) (ib : InstanceBody) (gname : String) :
    ((authorCandidate pid (validateAuthorBody ab).2).id = pid ∧
      ((author_update_post s pid ab).2 = s ∨
        (author_update_post s pid ab).2 =
          (updateAuthorById s pid (authorCandidate pid (validateAuthorBody ab).2)).2)) ∧
    ((bookCandidate pid (validateBookBody bb).2).id = pid ∧
      ((book_update_post s pid bb).2 = s ∨
        (book_update_post s pid bb).2 =
          (updateBookById s pid (bookCandidate pid (validateBookBody bb).2)).2)) ∧
    ((instanceCandidate pid (validateInstanceBody ib).2).id = pid ∧
      ((bookinstance_update_post s pid ib).2 = s ∨
        (bookinstance_update_post s pid ib).2 =
          (updateInstanceById s pid
            (instanceCandidate pid (validateInstanceBody ib).2)).2)) ∧
    ((genreCandidate pid gname).id = pid ∧
      ((genre_update_post s pid gname).2 = s ∨
        (genre_update_post s pid gname).2 =
          (updateGenreById s pid (genreCandidate pid gname)).2)) := by
  refine ⟨⟨rfl, ?_⟩, ⟨rfl, ?_⟩, ⟨rfl, ?_⟩, ⟨rfl, ?_⟩⟩
  · simp only [author_update_post]
    split
    · exact Or.inl rfl
    · refine Or.inr ?_
      split <;> simp_all
  · simp only [book_update_post]
    split
    · exact Or.inl rfl
    · refine Or.inr ?_
      split <;> simp_all
  · simp only [bookinstance_update_post]
    split
    · split
      · exact Or.inl rfl
      · refine Or.inr ?_
        split <;> simp_all
    · split
      · exact Or.inl rfl
      · refine Or.inr ?_
        split <;> simp_all
  · simp only [genre_update_post]
    split
    · exact Or.inl rfl
    · split
      · exact Or.inl rfl
      · refine Or.inr ?_
        split <;> simp_all

/-- C10: an update-POST with fully valid input on a path id that resolves
to no document does not produce a 404 NotFound response: update-by-id
returns nothing, the handler's dereference of the missing result's `url`
raises a TypeError, and that error is forwarded to the generic error
responder with no status. -/
theorem c10_update_post_missing_id_typeerror (s : Store) (pid : String)
    (ab : AuthorBody) (bb : BookBody) (ib : InstanceBody)
    (hab : (validateAuthorBody ab).1 = [])
    (hbb : (validateBookBody bb).1 = [])
    (hib : (validateInstanceBody ib).1 = [])
    (hextra : (validateInstanceBody ib).2.status = "Available" ∨
      toDateFalsy ib.due_back = false) :
    (findAuthorById s pid = none →
      author_update_post s pid ab =
        ([.nextErr none "TypeError: cannot read url of null"], s)) ∧
    (findBookById s pid = none →
      book_update_post s pid bb =
        ([.nextErr none "TypeError: cannot read url of null"], s)) ∧
    (findInstanceById s pid = none →
      bookinstance_update_post s pid ib =
        ([.nextErr none "TypeError: cannot read url of null"], s)) := by
  refine ⟨fun h => ?_, fun h => ?_, fun h => ?_⟩
  · have hf : s.authors.find? (fun a => a.id == pid) = none := h
    simp [author_update_post, hab, updateAuthorById, hf]
  · have hf : s.books.find? (fun b => b.id == pid) = none := h
    simp [book_update_post, hbb, updateBookById, hf]
  · have hf : s.instances.find? (fun i => i.id == pid) = none := h
    have hex : (if !((validateInstanceBody ib).2.status == "Available") &&
        toDateFalsy ib.due_back then [dateErrow] else []) = [] := by
      rcases hextra with h1 | h1 <;> simp [h1]
    simp only [bookinstance_update_post, hib, hex, List.nil_append,
      List.isEmpty_nil, Bool.not_true, Bool.false_eq_true, if_false]
    simp [updateInstanceById, hf]

/-- Helper: an empty-after-trim value fails a required chain with exactly
the chain's message. -/
theorem validateReqField_empty (field raw msg : String) (h : jsTrim raw = "") :
    (validateReqField field raw msg).1 = [mkErr "" msg field] := by
  simp [validateReqField, h]

/-- Helper: an empty-after-trim author name fails both validators of its
chain, the required message first. -/
theorem validateNameField_empty (field raw m1 m2 : String) (h : jsTrim raw = "") :
    (validateNameField field raw m1 m2).1 =
      [mkErr "" m1 field, mkErr "" m2 field] := by
  have h0 : escapeHtml "" = "" := rfl
  have h1 : isAlphanumericStr "" = false := rfl
  simp [validateNameField, h, h0, h1]

/-- Helper: Author create-POST with any failing validation re-renders the
form with the sanitized candidate and the collected errors, persisting
nothing. -/
theorem author_create_post_invalid (s : Store) (fid : String) (ab : AuthorBody)
    (h : (validateAuthorBody ab).1 ≠ []) :
    author_create_post s fid ab =
      ([.render "author_form"
          { title := "Create Author",
            author := some (authorCandidate "" (validateAuthorBody ab).2),
            errors := (validateAuthorBody ab).1 }], s) := by
  simp only [author_create_post]
  split
  · rfl
  · simp_all

/-- Helper: Book create-POST with any failing validation re-renders the
form with the sanitized candidate, the full author/genre lists, the
checked genre marks and the collected errors, persisting nothing. -/
theorem book_create_post_invalid (s : Store) (fid : String) (bb : BookBody)
    (h : (validateBookBody bb).1 ≠ []) :
    book_create_post s fid bb =
      ([.render "book_form"
          { title := "Create Book", authors := s.authors, genres := s.genres,
            genres_checked :=
              (s.genres.filter (fun g =>
                (bookCandidate fid (validateBookBody bb).2).genre.contains g.id)).map
                (fun g => g.id),
            book := some (bookCandidate fid (validateBookBody bb).2),
            errors := (validateBookBody bb).1 }], s) := by
  simp only [book_create_post]
  split
  · rfl
  · simp_all

/-- Helper: Genre create-POST with failing validation re-renders the form
with the candidate and the errors, persisting nothing. -/
theorem genre_create_post_invalid (s : Store) (fid gname : String)
    (h : validateGenreName gname ≠ []) :
    genre_create_post s fid gname =
      ([.render "genre_form"
          { title := "Create Genre", genre := some (genreCandidate fid gname),
            errors := validateGenreName gname }], s) := by
  simp only [genre_create_post]
  split
  · rfl
  · simp_all

/-- Helper: BookInstance create-POST with any failing validation
re-renders the form with the sanitized candidate and the collected
errors, persisting nothing. -/
theorem bookinstance_create_post_invalid (s : Store) (fid : String)
    (ib : InstanceBody) (h : (validateInstanceBody ib).1 ≠ []) :
    bookinstance_create_post s fid ib =
      ([.render "bookinstance_form"
          { title := "Create BookInstance", books := s.books,
            statuses := statusEnumValues,
            selected_book := some (instanceCandidate fid (validateInstanceBody ib).2).book,
            errors := (validateInstanceBody ib).1,
            bookinstance := some (instanceCandidate fid (validateInstanceBody ib).2) }],
       s) := by
  simp only [bookinstance_create_post]
  split
  · rfl
  · simp_all

/-- C8: for each entity type, a create-POST in which a required field is
empty (after trimming) responds with a single re-render of that entity's
form — not a redirect and not an error — whose bag holds the candidate
built from the sanitized input and an error list containing that field's
message, and the store is left unchanged. -/
theorem c8_create_empty_required_field (s : Store) (fid : String)
    (ab : AuthorBody) (bb : BookBody) (ib : InstanceBody) (gname : String) :
    (jsTrim ab.first_name = "" →
      author_create_post s fid ab =
        ([.render "author_form"
            { title := "Create Author",
              author := some (authorCandidate "" (validateAuthorBody ab).2),
              errors := (validateAuthorBody ab).1 }], s) ∧
      mkErr "" "First name must be specified." "first_name" ∈ (validateAuthorBody ab).1) ∧
    (jsTrim ab.family_name = "" →
      author_create_post s fid ab =
        ([.render "author_form"
            { title := "Create Author",
              author := some (authorCandidate "" (validateAuthorBody ab).2),
              errors := (validateAuthorBody ab).1 }], s) ∧
      mkErr "" "Family name must be specified." "family_name" ∈ (validateAuthorBody ab).1) ∧
    (jsTrim bb.title = "" →
      book_create_post s fid bb =
        ([.render "book_form"
            { title := "Create Book", authors := s.authors, genres := s.genres,
              genres_checked :=
                (s.genres.filter (fun g =>
                  (bookCandidate fid (validateBookBody bb).2).genre.contains g.id)).map
                  (fun g => g.id),
              book := some (bookCandidate fid (validateBookBody bb).2),
              errors := (validateBookBody bb).1 }], s) ∧
      mkErr "" "Title must not be empty." "title" ∈ (validateBookBody bb).1) ∧
    (jsTrim bb.author = "" →
      book_create_post s fid bb =
        ([.render "book_form"
            { title := "Create Book", authors := s.authors, genres := s.genres,
              genres_checked :=
                (s.genres.filter (fun g =>
                  (bookCandidate fid (validateBookBody bb).2).genre.contains g.id)).map
                  (fun g => g.id),
              book := some (bookCandidate fid (validateBookBody bb).2),
              errors := (validateBookBody bb).1 }], s) ∧
      mkErr "" "Author must not be empty." "author" ∈ (validateBookBody bb).1) ∧
    (jsTrim bb.summary = "" →
      book_create_post s fid bb =
        ([.render "book_form"
            { title := "Create Book", authors := s.authors, genres := s.genres,
              genres_checked :=
                (s.genres.filter (fun g =>
                  (bookCandidate fid (validateBookBody bb).2).genre.contains g.id)).map
                  (fun g => g.id),
              book := some (bookCandidate fid (validateBookBody bb).2),
              errors := (validateBookBody bb).1 }], s) ∧
      mkErr "" "Summary must not be empty." "summary" ∈ (validateBookBody bb).1) ∧
    (jsTrim bb.isbn = "" →
      book_create_post s fid bb =
        ([.render "book_form"
            { title := "Create Book", authors := s.authors, genres := s.genres,
              genres_checked :=
                (s.genres.filter (fun g =>
                  (bookCandidate fid (validateBookBody bb).2).genre.contains g.id)).map
                  (fun g => g.id),
              book := some (bookCandidate fid (validateBookBody bb).2),
              errors := (validateBookBody bb).1 }], s) ∧
      mkErr "" "ISBN must not be empty" "isbn" ∈ (validateBookBody bb).1) ∧
    (jsTrim gname = "" →
      genre_create_post s fid gname =
        ([.render "genre_form"
            { title := "Create Genre", genre := some (genreCandidate fid gname),
              errors := validateGenreName gname }], s) ∧
      mkErr "" "Genre name required" "name" ∈ validateGenreName gname) ∧
    (jsTrim ib.book = "" →
      bookinstance_create_post s fid ib =
        ([.render "bookinstance_form"
            { title := "Create BookInstance", books := s.books,
              statuses := statusEnumValues,
              selected_book :=
                some (instanceCandidate fid (validateInstanceBody ib).2).book,
              errors := (validateInstanceBody ib).1,
              bookinstance := some (instanceCandidate fid (validateInstanceBody ib).2) }],
         s) ∧
      mkErr "" "Book must be specified" "book" ∈ (validateInstanceBody ib).1) ∧
    (jsTrim ib.imprint = "" →
      bookinstance_create_post s fid ib =
        ([.render "bookinstance_form"
            { title := "Create BookInstance", books := s.books,
              statuses := statusEnumValues,
              selected_book :=
                some (instanceCandidate fid (validateInstanceBody ib).2).book,
              errors := (validateInstanceBody ib).1,
              bookinstance := some (instanceCandidate fid (validateInstanceBody ib).2) }],
         s) ∧
      mkErr "" "Imprint must be specified" "imprint" ∈ (validateInstanceBody ib).1) := by
  refine ⟨fun h => ?_, fun h => ?_, fun h => ?_, fun h => ?_, fun h => ?_,
    fun h => ?_, fun h => ?_, fun h => ?_, fun h => ?_⟩
  · have hm : mkErr "" "First name must be specified." "first_name"
        ∈ (validateAuthorBody ab).1 := by
      simp [validateAuthorBody, validateNameField_empty "first_name" ab.first_name
        "First name must be specified." "First name has non-alphanumeric characters." h]
    exact ⟨author_create_post_invalid s fid ab (List.ne_nil_of_mem hm), hm⟩
  · have hm : mkErr "" "Family name must be specified." "family_name"
        ∈ (validateAuthorBody ab).1 := by
      simp [validateAuthorBody, validateNameField_empty "family_name" ab.family_name
        "Family name must be specified." "Family name has non-alphanumeric characters." h]
    exact ⟨author_create_post_invalid s fid ab (List.ne_nil_of_mem hm), hm⟩
  · have hm : mkErr "" "Title must not be empty." "title" ∈ (validateBookBody bb).1 := by
      simp [validateBookBody,
        validateReqField_empty "title" bb.title "Title must not be empty." h]
    exact ⟨book_create_post_invalid s fid bb (List.ne_nil_of_mem hm), hm⟩
  · have hm : mkErr "" "Author must not be empty." "author" ∈ (validateBookBody bb).1 := by
      simp [validateBookBody,
        validateReqField_empty "author" bb.author "Author must not be empty." h]
    exact ⟨book_create_post_invalid s fid bb (List.ne_nil_of_mem hm), hm⟩
  · have hm : mkErr "" "Summary must not be empty." "summary" ∈ (validateBookBody bb).1 := by
      simp [validateBookBody,
        validateReqField_empty "summary" bb.summary "Summary must not be empty." h]
    exact ⟨book_create_post_invalid s fid bb (List.ne_nil_of_mem hm), hm⟩
  · have hm : mkErr "" "ISBN must not be empty" "isbn" ∈ (validateBookBody bb).1 := by
      simp [validateBookBody,
        validateReqField_empty "isbn" bb.isbn "ISBN must not be empty" h]
    exact ⟨book_create_post_invalid s fid bb (List.ne_nil_of_mem hm), hm⟩
  · have hm : mkErr "" "Genre name required" "name" ∈ validateGenreName gname := by
      simp [validateGenreName, h]
    exact ⟨genre_create_post_invalid s fid gname (List.ne_nil_of_mem hm), hm⟩
  · have hm : mkErr "" "Book must be specified" "book"
        ∈ (validateInstanceBody ib).1 := by
      simp [validateInstanceBody,
        validateReqField_empty "book" ib.book "Book must be specified" h]
    exact ⟨bookinstance_create_post_invalid s fid ib (List.ne_nil_of_mem hm), hm⟩
  · have hm : mkErr "" "Imprint must be specified" "imprint"
        ∈ (validateInstanceBody ib).1 := by
      simp [validateInstanceBody,
        validateReqField_empty "imprint" ib.imprint "Imprint must be specified" h]
    exact ⟨bookinstance_create_post_invalid s fid ib (List.ne_nil_of_mem hm), hm⟩

/-- C8 (witness): an author create with empty first name re-renders the
author form with the required-field message, and the empty store stays
empty. -/
theorem c8_witness :
    jsTrim "" = "" ∧
    author_create_post estore "aNew"
        { first_name := "", family_name := "Doe",
          date_of_birth := "", date_of_death := "" } =
      ([.render "author_form"
          { title := "Create Author",
            author := some (authorCandidate ""
              (validateAuthorBody
                { first_name := "", family_name := "Doe",
                  date_of_birth := "", date_of_death := "" }).2),
            errors := (validateAuthorBody
              { first_name := "", family_name := "Doe",
                date_of_birth := "", date_of_death := "" }).1 }], estore) :=
  ⟨rfl,
   ((c8_create_empty_required_field estore "aNew"
      { first_name := "", family_name := "Doe",
        date_of_birth := "", date_of_death := "" }
      { title := "T", author := "A", summary := "S", isbn := "I",
        genre := GenreField.undef }
      { book := "B", imprint := "Imp", status := "Available", due_back := "" }
      "G").1 rfl).1⟩

/-- C10 (witness): updating with valid input for a path id absent from
the empty store yields the forwarded TypeError, not a 404. -/
theorem c10_witness :
    findAuthorById estore "x" = none ∧
    author_update_post estore "x"
        { first_name := "Jane", family_name := "Doe",
          date_of_birth := "", date_of_death := "" } =
      ([.nextErr none "TypeError: cannot read url of null"], estore) :=
  ⟨by decide,
   (c10_update_post_missing_id_typeerror estore "x"
      { first_name := "Jane", family_name := "Doe",
        date_of_birth := "", date_of_death := "" }
      { title := "T", author := "A", summary := "S", isbn := "I",
        genre := GenreField.undef }
      { book := "B", imprint := "Imp", status := "Available", due_back := "" }
      (by decide) (by decide) (by decide) (Or.inl (by decide))).1 (by decide)⟩
